import Mathlib

/-!
Shallow embedding of `setup_database.py` from the grant-success-predictor
repository: a one-shot bootstrap script that probes a CockroachDB store and
the OpenAI API, creates six tables with `CREATE TABLE IF NOT EXISTS`, seeds
eight Grant records with `INSERT ... ON CONFLICT DO NOTHING`, runs a
smoke-test AI call, and closes the connection on the success path.

External effects (connection outcome, OpenAI call outcomes, per-record
insert exceptions, the pseudo-random deadline offsets) are supplied by an
`Env` oracle; the database is explicit state.
-/

namespace SetupDB

/-- A column of a table definition: column name paired with the SQL
type-and-modifier text, transcribed from the `CREATE TABLE` statements. -/
structure Column where
  cname : String
  ctype : String
deriving DecidableEq, Repr

/-- A table definition: the table name, its columns, and its foreign-key
references as pairs (column name, referenced table name). -/
structure TableDef where
  name : String
  columns : List Column
  refs : List (String × String)
deriving DecidableEq, Repr

/-- `grants` table (setup_database.py lines 60-77). -/
def grantsTable : TableDef :=
  { name := "grants"
  , columns :=
      [ ⟨"id", "UUID PRIMARY KEY DEFAULT gen_random_uuid()"⟩
      , ⟨"title", "VARCHAR(500) NOT NULL"⟩
      , ⟨"agency", "VARCHAR(255)"⟩
      , ⟨"amount_min", "DECIMAL(15,2)"⟩
      , ⟨"amount_max", "DECIMAL(15,2)"⟩
      , ⟨"deadline", "DATE"⟩
      , ⟨"description", "TEXT"⟩
      , ⟨"category", "VARCHAR(100)"⟩
      , ⟨"keywords", "TEXT"⟩
      , ⟨"eligibility", "TEXT"⟩
      , ⟨"source", "VARCHAR(50)"⟩
      , ⟨"url", "VARCHAR(500)"⟩
      , ⟨"success_rate", "DECIMAL(5,2)"⟩
      , ⟨"created_at", "TIMESTAMP DEFAULT CURRENT_TIMESTAMP"⟩ ]
  , refs := [] }

/-- `applications` table (lines 80-96); `grant_id UUID REFERENCES grants(id)`. -/
def applicationsTable : TableDef :=
  { name := "applications"
  , columns :=
      [ ⟨"id", "UUID PRIMARY KEY DEFAULT gen_random_uuid()"⟩
      , ⟨"user_email", "VARCHAR(255)"⟩
      , ⟨"organization_name", "VARCHAR(255)"⟩
      , ⟨"grant_id", "UUID REFERENCES grants(id)"⟩
      , ⟨"proposal_file_name", "VARCHAR(255)"⟩
      , ⟨"proposal_text", "TEXT"⟩
      , ⟨"success_probability", "DECIMAL(5,2)"⟩
      , ⟨"match_score", "DECIMAL(5,2)"⟩
      , ⟨"strengths", "TEXT"⟩
      , ⟨"weaknesses", "TEXT"⟩
      , ⟨"recommendations", "TEXT"⟩
      , ⟨"ai_analysis", "JSONB"⟩
      , ⟨"created_at", "TIMESTAMP DEFAULT CURRENT_TIMESTAMP"⟩ ]
  , refs := [("grant_id", "grants")] }

/-- `analysis_history` table (lines 99-108); references `applications(id)`. -/
def analysisHistoryTable : TableDef :=
  { name := "analysis_history"
  , columns :=
      [ ⟨"id", "UUID PRIMARY KEY DEFAULT gen_random_uuid()"⟩
      , ⟨"application_id", "UUID REFERENCES applications(id)"⟩
      , ⟨"openai_tokens_used", "INTEGER"⟩
      , ⟨"analysis_cost", "DECIMAL(10,4)"⟩
      , ⟨"processing_time_seconds", "DECIMAL(10,2)"⟩
      , ⟨"created_at", "TIMESTAMP DEFAULT CURRENT_TIMESTAMP"⟩ ]
  , refs := [("application_id", "applications")] }

/-- `users` table (lines 111-122). -/
def usersTable : TableDef :=
  { name := "users"
  , columns :=
      [ ⟨"id", "UUID PRIMARY KEY DEFAULT gen_random_uuid()"⟩
      , ⟨"email", "VARCHAR(255) UNIQUE NOT NULL"⟩
      , ⟨"name", "VARCHAR(255) NOT NULL"⟩
      , ⟨"google_id", "VARCHAR(255) UNIQUE"⟩
      , ⟨"picture", "VARCHAR(500)"⟩
      , ⟨"subscription_status", "VARCHAR(50) DEFAULT \x27free\x27"⟩
      , ⟨"created_at", "TIMESTAMP DEFAULT CURRENT_TIMESTAMP"⟩
      , ⟨"updated_at", "TIMESTAMP DEFAULT CURRENT_TIMESTAMP"⟩ ]
  , refs := [] }

/-- `predictions` table (lines 125-141); references `users(id)`. -/
def predictionsTable : TableDef :=
  { name := "predictions"
  , columns :=
      [ ⟨"id", "UUID PRIMARY KEY DEFAULT gen_random_uuid()"⟩
      , ⟨"user_id", "UUID REFERENCES users(id)"⟩
      , ⟨"organization_name", "VARCHAR(255) NOT NULL"⟩
      , ⟨"organization_type", "VARCHAR(100) NOT NULL"⟩
      , ⟨"funding_amount", "INTEGER NOT NULL"⟩
      , ⟨"experience_level", "VARCHAR(50) NOT NULL"⟩
      , ⟨"has_partnership", "BOOLEAN DEFAULT FALSE"⟩
      , ⟨"has_previous_grants", "BOOLEAN DEFAULT FALSE"⟩
      , ⟨"success_probability", "INTEGER NOT NULL"⟩
      , ⟨"confidence", "VARCHAR(20) NOT NULL"⟩
      , ⟨"ai_enhanced", "BOOLEAN DEFAULT FALSE"⟩
      , ⟨"recommendations", "JSONB"⟩
      , ⟨"created_at", "TIMESTAMP DEFAULT CURRENT_TIMESTAMP"⟩ ]
  , refs := [("user_id", "users")] }

/-- `subscriptions` table (lines 144-155); references `users(id)`. -/
def subscriptionsTable : TableDef :=
  { name := "subscriptions"
  , columns :=
      [ ⟨"id", "UUID PRIMARY KEY DEFAULT gen_random_uuid()"⟩
      , ⟨"user_id", "UUID REFERENCES users(id)"⟩
      , ⟨"stripe_subscription_id", "VARCHAR(255) UNIQUE"⟩
      , ⟨"status", "VARCHAR(50) NOT NULL"⟩
      , ⟨"current_period_start", "TIMESTAMP"⟩
      , ⟨"current_period_end", "TIMESTAMP"⟩
      , ⟨"created_at", "TIMESTAMP DEFAULT CURRENT_TIMESTAMP"⟩
      , ⟨"updated_at", "TIMESTAMP DEFAULT CURRENT_TIMESTAMP"⟩ ]
  , refs := [("user_id", "users")] }

/-- The six `CREATE TABLE IF NOT EXISTS` statements, in source order
(lines 60-155): grants, applications, analysis_history, users,
predictions, subscriptions. -/
def allTables : List TableDef :=
  [ grantsTable, applicationsTable, analysisHistoryTable
  , usersTable, predictionsTable, subscriptionsTable ]

/-- `CREATE TABLE IF NOT EXISTS` semantics: if a table of the same name
already exists the statement is a silent no-op, otherwise the definition
is added. Returns the new catalog and whether a table was created. -/
def createTableIfNotExists (cat : List TableDef) (t : TableDef) :
    List TableDef × Bool :=
  if cat.any (fun u => u.name = t.name) then (cat, false)
  else (cat ++ [t], true)

/-- Run the six conditional creates in source order; returns the final
catalog and how many tables were newly created. -/
def ensureSchema (cat : List TableDef) : List TableDef × Nat :=
  allTables.foldl
    (fun acc t =>
      let r := createTableIfNotExists acc.1 t
      (r.1, acc.2 + (if r.2 then 1 else 0)))
    (cat, 0)

/-- One record of the fixed reference catalog `sample_grants`
(setup_database.py lines 163-260). Amounts are whole dollars; the
success rate is stored in tenths of a percent (32.5 becomes 325). -/
structure SeedGrant where
  title : String
  agency : String
  amount_min : Nat
  amount_max : Nat
  category : String
  description : String
  keywords : String
  eligibility : String
  success_rate_tenths : Nat
  url : String
deriving DecidableEq, Repr

/-- The eight-entry reference catalog `sample_grants`, transcribed in
source order. -/
def sampleGrants : List SeedGrant :=
  [ { title := "Environmental Innovation Grant 2024"
    , agency := "EPA"
    , amount_min := 50000, amount_max := 500000
    , category := "Environment"
    , description := "Supporting innovative environmental protection technologies and research"
    , keywords := "environment, climate, sustainability, green tech"
    , eligibility := "Non-profit organizations, educational institutions"
    , success_rate_tenths := 325
    , url := "https://www.epa.gov/grants" }
  , { title := "Small Business Innovation Research (SBIR) Phase I"
    , agency := "NSF"
    , amount_min := 100000, amount_max := 275000
    , category := "Technology"
    , description := "Seed funding for technology startups and innovative small businesses"
    , keywords := "technology, innovation, startup, R&D"
    , eligibility := "Small businesses with fewer than 500 employees"
    , success_rate_tenths := 187
    , url := "https://www.nsf.gov/sbir" }
  , { title := "NIH Research Project Grant (R01)"
    , agency := "NIH"
    , amount_min := 250000, amount_max := 500000
    , category := "Health"
    , description := "Support for health-related research and development"
    , keywords := "health, medical, research, clinical"
    , eligibility := "Research institutions, universities"
    , success_rate_tenths := 210
    , url := "https://grants.nih.gov" }
  , { title := "Education Innovation and Research Grant"
    , agency := "Department of Education"
    , amount_min := 100000, amount_max := 4000000
    , category := "Education"
    , description := "Supporting evidence-based innovations in education"
    , keywords := "education, learning, schools, innovation"
    , eligibility := "Educational agencies, non-profits"
    , success_rate_tenths := 153
    , url := "https://www.ed.gov/grants" }
  , { title := "Community Development Block Grant"
    , agency := "HUD"
    , amount_min := 50000, amount_max := 2000000
    , category := "Community Development"
    , description := "Funding for community development and housing projects"
    , keywords := "community, housing, urban development"
    , eligibility := "Local governments, community organizations"
    , success_rate_tenths := 289
    , url := "https://www.hud.gov/cdbg" }
  , { title := "Arts and Culture Grant Program"
    , agency := "NEA"
    , amount_min := 10000, amount_max := 100000
    , category := "Arts"
    , description := "Supporting artistic excellence and cultural preservation"
    , keywords := "arts, culture, music, theater, visual arts"
    , eligibility := "Arts organizations, individual artists"
    , success_rate_tenths := 245
    , url := "https://www.arts.gov" }
  , { title := "Clean Energy Innovation Fund"
    , agency := "DOE"
    , amount_min := 500000, amount_max := 5000000
    , category := "Energy"
    , description := "Advancing clean energy technologies and renewable solutions"
    , keywords := "clean energy, solar, wind, renewable, battery"
    , eligibility := "Research institutions, energy companies"
    , success_rate_tenths := 168
    , url := "https://www.energy.gov/grants" }
  , { title := "Rural Development Grant"
    , agency := "USDA"
    , amount_min := 25000, amount_max := 500000
    , category := "Agriculture"
    , description := "Supporting rural communities and agricultural innovation"
    , keywords := "rural, agriculture, farming, community development"
    , eligibility := "Rural communities, agricultural businesses"
    , success_rate_tenths := 312
    , url := "https://www.usda.gov/rural" }
  ]

/-- A row of the `grants` table as written by the seed insert
(lines 266-275). `id` models the freshly generated `gen_random_uuid()`
primary key; `deadline` is the day offset `random.randint(30, 180)`
added to the current date. The `created_at` column keeps its database
default and is not modeled. -/
structure GrantRow where
  id : Nat
  title : String
  agency : String
  amount_min : Nat
  amount_max : Nat
  deadline : Nat
  description : String
  category : String
  keywords : String
  eligibility : String
  source : String
  url : String
  success_rate_tenths : Nat
deriving DecidableEq, Repr

/-- The VALUES tuple of the seed insert: all fields come from the catalog
record, `source` is the literal string in the code, `deadline` is the
derived date, `id` is the freshly generated identifier. -/
def mkGrantRow (id : Nat) (deadline : Nat) (g : SeedGrant) : GrantRow :=
  { id := id
  , title := g.title
  , agency := g.agency
  , amount_min := g.amount_min
  , amount_max := g.amount_max
  , deadline := deadline
  , description := g.description
  , category := g.category
  , keywords := g.keywords
  , eligibility := g.eligibility
  , source := "Government"
  , url := g.url
  , success_rate_tenths := g.success_rate_tenths }

/-- The database state: the table catalog, the generator for fresh `id`
values, the `grants` rows, and the rows of the five other tables (opaque,
since the script never writes them). -/
structure DBState where
  tables : List TableDef
  nextId : Nat
  grants : List GrantRow
  applications : List String
  analysis_history : List String
  users : List String
  predictions : List String
  subscriptions : List String
deriving DecidableEq, Repr

/-- An empty store: no tables, no rows. -/
def emptyDB : DBState :=
  { tables := [], nextId := 0, grants := []
  , applications := [], analysis_history := [], users := []
  , predictions := [], subscriptions := [] }

/-- `INSERT INTO grants ... ON CONFLICT DO NOTHING` (lines 266-275),
issued inside an open transaction whose visible rows are the committed
rows plus the rows already inserted by this transaction. The only
uniqueness constraint on `grants` is the primary key `id`, which the
insert leaves to the `gen_random_uuid()` default, so a conflict can
arise only on `id`. Returns the rows the statement adds to the
transaction and its rowcount (1 if a row was inserted, 0 on
conflict). -/
def insertGrantOnConflict (visible : List GrantRow) (nextId : Nat)
    (deadline : Nat) (g : SeedGrant) : List GrantRow × Nat :=
  let row := mkGrantRow nextId deadline g
  if visible.any (fun r => r.id = row.id) then ([], 0)
  else ([row], 1)

/-- Outcomes of the external world for one run: whether the database
probe (connect + `SELECT version()`) succeeds, whether each shape of the
OpenAI probe call succeeds, which seed inserts raise an exception
(index into `sample_grants`), the pseudo-random deadline offset drawn
for each record, and the smoke-test call outcomes. -/
structure Env where
  dbOk : Bool
  aiModernOk : Bool
  aiLegacyOk : Bool
  insertRaises : Nat → Bool
  deadlineDays : Nat → Nat
  smokeModernOk : Bool
  smokeLegacyOk : Bool

/-- Result of the OpenAI probe: which call shape succeeded, if any. -/
inductive AIResult where
  | modern
  | legacy
  | failed
deriving DecidableEq, Repr

/-- The OpenAI probe (lines 30-54): try the v1.0+ call shape first; the
bare `except:` catches any failure of that attempt and tries the v0.x
shape; the outer handler fires (leading to `exit(1)`) only if the
legacy attempt also fails. -/
def aiProbe (modernOk legacyOk : Bool) : AIResult :=
  if modernOk then AIResult.modern
  else if legacyOk then AIResult.legacy
  else AIResult.failed

/-- The state of the implicit psycopg2 transaction holding the seed
loop. The connection runs in the default non-autocommit mode, so after
the `conn.commit()` at line 157 all seed inserts share one open
transaction until the `conn.commit()` at line 281. `pending` are the
rows inserted by this transaction and not yet committed; `aborted`
records that a statement failed, after which every further statement in
the transaction raises `InFailedSqlTransaction`. -/
structure SeedTx where
  pending : List GrantRow
  nextId : Nat
  count : Nat
  aborted : Bool
deriving DecidableEq, Repr

/-- One iteration of the seed loop (lines 263-279). If the transaction
is already aborted, `cursor.execute` raises `InFailedSqlTransaction`
before anything happens; the per-record `except` logs a warning and the
loop continues. If the insert for this record itself raises (e.g. a
column-constraint violation, which `ON CONFLICT DO NOTHING` does not
swallow), the same `except` fires and the open transaction becomes
aborted. Otherwise the conditional insert runs against the rows visible
in the transaction and `inserted_count` is incremented when
`cursor.rowcount > 0`. -/
def seedStep (env : Env) (committed : List GrantRow) (acc : SeedTx)
    (ig : Nat × SeedGrant) : SeedTx :=
  if acc.aborted then acc
  else if env.insertRaises ig.1 then { acc with aborted := true }
  else
    let r := insertGrantOnConflict (committed ++ acc.pending) acc.nextId
      (env.deadlineDays ig.1) ig.2
    { acc with
        pending := acc.pending ++ r.1,
        nextId := acc.nextId + 1,
        count := if r.2 > 0 then acc.count + 1 else acc.count }

/-- The seed loop over a (indexed) record list, inside one open
transaction whose committed context is `committed`. -/
def seedLoopAux (env : Env) (committed : List GrantRow) :
    List (Nat × SeedGrant) → SeedTx → SeedTx
  | [], acc => acc
  | ig :: rest, acc => seedLoopAux env committed rest (seedStep env committed acc ig)

/-- The `conn.commit()` at line 281. If the transaction was aborted by a
failed statement, PostgreSQL treats the COMMIT of an aborted transaction
as a ROLLBACK: the call returns normally but every pending row is
discarded. Otherwise the pending rows become committed. -/
def commitSeed (db : DBState) (tx : SeedTx) : DBState :=
  if tx.aborted then { db with nextId := tx.nextId }
  else { db with grants := db.grants ++ tx.pending, nextId := tx.nextId }

/-- The full seed reconciliation pass: process the eight catalog records
in list order in one fresh transaction, starting with
`inserted_count = 0`, then commit (or roll back, if aborted) at
line 281. Returns the database state after the commit and the reported
`inserted_count`. -/
def seedGrants (env : Env) (db : DBState) : DBState × Nat :=
  let tx := seedLoopAux env db.grants sampleGrants.enum
    { pending := [], nextId := db.nextId, count := 0, aborted := false }
  (commitSeed db tx, tx.count)

/-- The observable outcome of one run of the script. `connClosed`
records whether `cursor.close()` / `conn.close()` (lines 394-395) were
reached; `connOpened` whether the store connection was established. -/
structure RunResult where
  exitCode : Nat
  db : DBState
  insertedCount : Nat
  reachedDone : Bool
  connOpened : Bool
  connClosed : Bool
deriving DecidableEq, Repr

/-- The whole script, in source order: (1) database probe, `exit(1)` on
failure; (2) OpenAI probe with modern/legacy fallback, `exit(1)` on
failure of both — with the connection open and no close call; (3) six
conditional creates, committed at line 157; (4) the seed loop in one
implicit transaction, committed — or rolled back, if a failed insert
aborted it — at line 281; (5)-(8) read-only count/listing queries, the
info file and the smoke test, none of which touch the store; then
`cursor.close()` / `conn.close()` and a normal exit 0. -/
def runSetup (env : Env) (db : DBState) : RunResult :=
  if env.dbOk = false then
    { exitCode := 1, db := db, insertedCount := 0
    , reachedDone := false, connOpened := false, connClosed := false }
  else if aiProbe env.aiModernOk env.aiLegacyOk = AIResult.failed then
    { exitCode := 1, db := db, insertedCount := 0
    , reachedDone := false, connOpened := true, connClosed := false }
  else
    let db1 := { db with tables := (ensureSchema db.tables).1 }
    let r := seedGrants env db1
    { exitCode := 0, db := r.1, insertedCount := r.2
    , reachedDone := true, connOpened := true, connClosed := true }

/-- An environment in which every external call succeeds and every
deadline draw is 30 days. -/
def envOk : Env :=
  { dbOk := true, aiModernOk := true, aiLegacyOk := true
  , insertRaises := fun _ => false, deadlineDays := fun _ => 30
  , smokeModernOk := true, smokeLegacyOk := true }

/-- An otherwise-healthy environment whose database probe fails. -/
def envDbFail : Env := { envOk with dbOk := false }

/-- An otherwise-healthy environment in which both shapes of the OpenAI
probe call fail. -/
def envAiFail : Env := { envOk with aiModernOk := false, aiLegacyOk := false }

/-- An otherwise-healthy environment in which exactly the seed record at
index `i` raises on insert. -/
def envFail (i : Nat) : Env := { envOk with insertRaises := fun k => k = i }

/-- The first record of the reference catalog. -/
def firstSeed : SeedGrant := sampleGrants.head (by decide)

end SetupDB

namespace SetupDB

/-! ### Helper lemmas -/

/-- Any row pending in the transaction after one seed-loop step was
already pending before it, or was built by `mkGrantRow` (hence has
source "Government"). -/
theorem seedStep_pending_mem (env : Env) (committed : List GrantRow)
    (acc : SeedTx) (ig : Nat × SeedGrant) (r : GrantRow)
    (h : r ∈ (seedStep env committed acc ig).pending) :
    r ∈ acc.pending ∨ r.source = "Government" := by
  unfold seedStep insertGrantOnConflict at h
  split at h
  · exact Or.inl h
  · split at h
    · exact Or.inl h
    · dsimp only at h
      split at h
      · exact Or.inl (by simpa using h)
      · rcases List.mem_append.mp h with h1 | h1
        · exact Or.inl h1
        · rcases List.mem_singleton.mp h1 with rfl
          exact Or.inr rfl

/-- Any row pending in the transaction after the seed loop was already
pending before it, or has source "Government". -/
theorem seedLoopAux_pending_mem (env : Env) (committed : List GrantRow)
    (l : List (Nat × SeedGrant)) :
    ∀ acc : SeedTx, ∀ r : GrantRow,
      r ∈ (seedLoopAux env committed l acc).pending →
      r ∈ acc.pending ∨ r.source = "Government" := by
  induction l with
  | nil => exact fun acc r h => Or.inl h
  | cons ig rest ih =>
    intro acc r h
    rcases ih (seedStep env committed acc ig) r h with h1 | h1
    · exact seedStep_pending_mem env committed acc ig r h1
    · exact Or.inr h1

/-! ### Claim theorems -/

/-- C1: refuted on the code as written. The claim says that invoking
seed reconciliation twice against the same (initially empty) store
leaves exactly 8 Grant rows, never 16. In the source the only
uniqueness constraint on `grants` is the always-fresh generated primary
key, so `ON CONFLICT DO NOTHING` never fires: the second run inserts
all 8 records again, leaving 16 rows with every title duplicated. This
theorem evaluates the embedded script at that failing input: one run
gives 8 rows, a second run gives 16, and the first catalog title then
occurs on two distinct rows. -/
theorem c1_second_run_duplicates_rows :
    (runSetup envOk emptyDB).db.grants.length = 8
  ∧ (runSetup envOk (runSetup envOk emptyDB).db).db.grants.length = 16
  ∧ ((runSetup envOk (runSetup envOk emptyDB).db).db.grants.filter
      (fun r => r.title = "Environmental Innovation Grant 2024")).length = 2 := by
  decide

/-- C2: refuted on the code as written. The claim says the first run
reports 8 new Grant records and the second run reports 0. The first
half holds, but because no conflict ever fires (the conflict target is
the always-fresh generated id), every insert of the second run also
succeeds with rowcount 1, so `inserted_count` is 8 again, not 0. -/
theorem c2_second_run_reports_eight :
    (runSetup envOk emptyDB).insertedCount = 8
  ∧ (runSetup envOk (runSetup envOk emptyDB).db).insertedCount = 8 := by
  decide

/-- C3: schema reconciliation is idempotent. Against an empty store the
six `CREATE TABLE IF NOT EXISTS` statements create exactly 6 tables; a
second invocation leaves the table definitions identical and creates 0
additional tables. In the embedding the conditional create is total, so
no invocation can fail because a prior run already created tables. -/
theorem c3_schema_idempotent :
    (ensureSchema []).2 = 6
  ∧ (ensureSchema (ensureSchema []).1).1 = (ensureSchema []).1
  ∧ (ensureSchema (ensureSchema []).1).2 = 0 := by
  decide

/-- C4: refuted on the code as written. The claim says a single failing
seed insert leaves all other seed records present. The script runs the
whole seed loop in one implicit psycopg2 transaction (default
non-autocommit mode, no rollback call anywhere): when the insert for
record index 2 (record 3 of 8) raises, the transaction is aborted, the
inserts for records 4-8 fail with `InFailedSqlTransaction` (caught by
the same per-record `except`), and the `conn.commit()` at line 281 on
the aborted transaction is a ROLLBACK, discarding records 1-2 as well.
This theorem evaluates the embedded script at that failing input: zero
Grant rows persist, even though `inserted_count` reports 2, the run
reaches DONE and exits 0 — while a failure-free run persists all 8. -/
theorem c4_seed_failure_rolls_back_all_rows :
    (runSetup (envFail 2) emptyDB).db.grants.length = 0
  ∧ (runSetup (envFail 2) emptyDB).insertedCount = 2
  ∧ (runSetup (envFail 2) emptyDB).reachedDone = true
  ∧ (runSetup (envFail 2) emptyDB).exitCode = 0
  ∧ (runSetup envOk emptyDB).db.grants.length = 8 := by
  decide

/-- C5: if the store connectivity probe fails, the script exits with
status 1 before any mutation: the whole database state (tables and all
rows) is unchanged. -/
theorem c5_connect_failure_no_mutation (env : Env) (db : DBState)
    (h : env.dbOk = false) :
    (runSetup env db).db = db ∧ (runSetup env db).exitCode = 1 := by
  unfold runSetup
  rw [h]
  exact ⟨rfl, rfl⟩

/-- C5 witness: with a failing database probe against an empty store,
the store stays empty and the exit code is 1. -/
theorem c5_connect_failure_no_mutation_witness :
    (runSetup envDbFail emptyDB).db = emptyDB
  ∧ (runSetup envDbFail emptyDB).exitCode = 1 :=
  c5_connect_failure_no_mutation envDbFail emptyDB rfl

/-- C6: the six `CREATE TABLE` statements run in list order, and every
foreign-key reference of a table points at a table that occurs strictly
earlier in that order; in particular `applications` (position 1) refers
only to `grants` (position 0), so it is never created while `grants`
does not yet exist. -/
theorem c6_creation_order_respects_refs (i : Fin 6) (p : String × String)
    (hp : p ∈ (allTables.get ⟨i.val, i.isLt⟩).refs) :
    ∃ j : Fin 6, j.val < i.val ∧ (allTables.get ⟨j.val, j.isLt⟩).name = p.2 := by
  revert hp
  revert i p
  decide

/-- C6 witness: the `grant_id` reference of `applications` (position 1)
is satisfied by an earlier table named `grants`. -/
theorem c6_creation_order_respects_refs_witness :
    ∃ j : Fin 6, j.val < (1 : Fin 6).val
      ∧ (allTables.get ⟨j.val, j.isLt⟩).name = ("grant_id", "grants").2 :=
  c6_creation_order_respects_refs 1 ("grant_id", "grants") (by decide)

/-- C7: the OpenAI probe tries the modern (v1.0+) call shape first; on
any failure of that attempt it tries the legacy (v0.x) shape; it is
failed exactly when both attempts fail, and in that case the script
(with a healthy database probe) exits with status 1. -/
theorem c7_ai_probe_fallback (m l : Bool) :
    (m = true → aiProbe m l = AIResult.modern)
  ∧ (m = false → aiProbe m l = (if l then AIResult.legacy else AIResult.failed))
  ∧ (aiProbe m l = AIResult.failed ↔ m = false ∧ l = false)
  ∧ (∀ env : Env, ∀ db : DBState, env.dbOk = true →
      aiProbe env.aiModernOk env.aiLegacyOk = AIResult.failed →
      (runSetup env db).exitCode = 1) := by
  refine ⟨?_, ?_, ?_, ?_⟩
  · intro hm; simp [aiProbe, hm]
  · intro hm; simp [aiProbe, hm]
  · cases m <;> cases l <;> simp [aiProbe]
  · intro env db h1 h2
    unfold runSetup
    rw [h1, h2]
    rfl

/-- C7 witness: with the modern shape failing and the legacy shape
succeeding, the probe reports legacy; with both failing, a run against
an empty store (healthy database probe) exits with status 1. -/
theorem c7_ai_probe_fallback_witness :
    aiProbe false true = (if true then AIResult.legacy else AIResult.failed)
  ∧ (runSetup envAiFail emptyDB).exitCode = 1 :=
  ⟨(c7_ai_probe_fallback false true).2.1 rfl,
   (c7_ai_probe_fallback false false).2.2.2 envAiFail emptyDB rfl rfl⟩

/-- C8: the script writes rows only into `grants`: for every
environment and every starting store state, the row sets of
`applications`, `analysis_history`, `users`, `predictions` and
`subscriptions` are unchanged by a run. -/
theorem c8_frame_other_tables (env : Env) (db : DBState) :
    (runSetup env db).db.applications = db.applications
  ∧ (runSetup env db).db.analysis_history = db.analysis_history
  ∧ (runSetup env db).db.users = db.users
  ∧ (runSetup env db).db.predictions = db.predictions
  ∧ (runSetup env db).db.subscriptions = db.subscriptions := by
  unfold runSetup
  split
  · exact ⟨rfl, rfl, rfl, rfl, rfl⟩
  · split
    · exact ⟨rfl, rfl, rfl, rfl, rfl⟩
    · unfold seedGrants commitSeed
      dsimp only
      split
      · exact ⟨rfl, rfl, rfl, rfl, rfl⟩
      · exact ⟨rfl, rfl, rfl, rfl, rfl⟩

/-- C9 counterexample: the claim that the store connection is released
on every exit path fails. When the database probe succeeds (connection
open) but both OpenAI probe attempts fail, the script calls `exit(1)`
at line 54 without ever reaching `cursor.close()` / `conn.close()`
(lines 394-395): the connection is open and never closed. -/
theorem c9_ai_failure_leaves_connection_open :
    (runSetup envAiFail emptyDB).connOpened = true
  ∧ (runSetup envAiFail emptyDB).connClosed = false
  ∧ (runSetup envAiFail emptyDB).exitCode = 1 := by
  decide

/-- C9 amended: the close calls are reached exactly on the successful
exit path: for every environment and starting state, the connection is
explicitly closed if and only if the run exits with status 0; on the
fatal probe-failure paths the process exits without an explicit
release. -/
theorem c9_connection_closed_iff_success (env : Env) (db : DBState) :
    ((runSetup env db).connClosed = true ↔ (runSetup env db).exitCode = 0) := by
  unfold runSetup
  split
  · simp
  · split
    · simp
    · simp

/-- C10: every Grant row that a run adds to an initially empty store
has its `source` column equal to the literal string "Government",
whatever the environment (deadline draws, insert failures, probe
outcomes). -/
theorem c10_inserted_source_government (env : Env) (r : GrantRow)
    (h : r ∈ (runSetup env emptyDB).db.grants) :
    r.source = "Government" := by
  unfold runSetup seedGrants commitSeed at h
  split at h
  · exact absurd h (by simp [emptyDB])
  · split at h
    · exact absurd h (by simp [emptyDB])
    · dsimp only at h
      split at h
      · exact absurd h (by simp [emptyDB])
      · rcases List.mem_append.mp h with h1 | h1
        · exact absurd h1 (by simp [emptyDB])
        · rcases seedLoopAux_pending_mem _ _ _ _ _ h1 with h2 | h2
          · exact absurd h2 (by simp)
          · exact h2

/-- C10 witness: the row built from the first catalog record is in the
store after an all-healthy run, and its source is "Government". -/
theorem c10_inserted_source_government_witness :
    (mkGrantRow 0 30 firstSeed) ∈ (runSetup envOk emptyDB).db.grants
  ∧ (mkGrantRow 0 30 firstSeed).source = "Government" :=
  ⟨by decide, c10_inserted_source_government envOk (mkGrantRow 0 30 firstSeed) (by decide)⟩

end SetupDB
